import Mathlib

/-!
Verification of the ArcSys multi-agent orchestration engine.

This file gives a shallow embedding of the orchestration core of the
repository: the pipeline state (`app/graph/state.py`), the agent execution
contract (`app/agents/base.py`), the six concrete agents' response parsers
(`app/agents/planner.py`, `researcher.py`, `architect.py`, `visualizer.py`,
`critic.py`, `meta_critic.py`), the retry router and finalizer
(`app/graph/builder.py`), and the step semantics of the compiled graph.

Python floats are modelled as rationals extended with the three non-finite
values (`PyFloat`); Python strings as Lean strings (sequences of unicode
characters, matching Python's code-point semantics for `len`, slicing and
`in`); exceptions as `Except` values; the external LLM collaborator as an
oracle `Nat → Except String String` giving, for each successive call, either
the response text or the exception message the call would raise.
-/

namespace ArcSys

/-- Model of a Python float value: a finite rational, or one of the three
non-finite values.  The values produced by the code at hand are decimal
literals, which are exactly representable as rationals. -/
inductive PyFloat where
  | fin (q : ℚ)
  | inf
  | ninf
  | nan
deriving DecidableEq, Repr

/-- Python `<` on floats (IEEE-754 ordering: any comparison with `nan` is
false). -/
def PyFloat.lt : PyFloat → PyFloat → Bool
  | .fin a, .fin b => a < b
  | .fin _, .inf => true
  | .fin _, _ => false
  | .ninf, .fin _ => true
  | .ninf, .inf => true
  | .ninf, _ => false
  | .inf, _ => false
  | .nan, _ => false

/-- Python truthiness of a float: `0.0` is falsy, every other value
(including `inf` and `nan`) is truthy. -/
def PyFloat.truthy : PyFloat → Bool
  | .fin q => q ≠ 0
  | _ => true

/-- Characters stripped by Python `str.strip()` (ASCII whitespace). -/
def isPySpace (c : Char) : Bool :=
  c = ' ' || c = '\t' || c = '\n' || c = '\r' || c = '\x0b' || c = '\x0c'

/-- Python `str.strip()`. -/
def pyStrip (s : String) : String :=
  String.mk (((s.data.dropWhile isPySpace).reverse.dropWhile isPySpace).reverse)

/-- Python `str.lower()` (ASCII range; the code only matches ASCII
keywords and patterns). -/
def asciiLower (s : String) : String :=
  String.mk (s.data.map Char.toLower)

/-- Python `str.startswith`. -/
def pyStartsWith (s pre : String) : Bool :=
  List.isPrefixOf pre.data s.data

/-- Python `str.endswith`. -/
def pyEndsWith (s suf : String) : Bool :=
  List.isPrefixOf suf.data.reverse s.data.reverse

/-- Python slicing `s[n:]` (by code points, as in Python). -/
def pyDrop (s : String) (n : Nat) : String :=
  String.mk (s.data.drop n)

/-- Python slicing `s[:-n]`. -/
def pyDropRight (s : String) (n : Nat) : String :=
  String.mk (s.data.take (s.data.length - n))

/-- Python slicing `s[:n]`. -/
def pyTake (s : String) (n : Nat) : String :=
  String.mk (s.data.take n)

/-- List-level substring test: does `needle` occur contiguously in `hay`?
Models the Python `in` operator on strings. -/
def isSubstr (needle : List Char) : List Char → Bool
  | [] => needle.isEmpty
  | c :: t => List.isPrefixOf needle (c :: t) || isSubstr needle t

/-- Pipeline state, after `LabState` in `app/graph/state.py`.  One record per
request, threaded through the whole run. -/
structure LabState where
  user_query : String
  requirements : String
  research : String
  architecture : String
  visualization : String
  critic_score : PyFloat
  critic_feedback : String
  bias_score : PyFloat
  final_markdown : String
  iteration_count : Nat
  error_messages : List String
deriving DecidableEq, Repr

/-- A partial state update, the dictionary a LangGraph node returns: present
keys replace the corresponding state fields, absent keys leave them
untouched.  `user_query` is never written by any node. -/
structure StateUpdate where
  requirements : Option String := none
  research : Option String := none
  architecture : Option String := none
  visualization : Option String := none
  critic_score : Option PyFloat := none
  critic_feedback : Option String := none
  bias_score : Option PyFloat := none
  final_markdown : Option String := none
  iteration_count : Option Nat := none
  error_messages : Option (List String) := none
deriving DecidableEq, Repr

deriving instance DecidableEq for Except

/-- Shallow field-wise merge of a partial update into the state (the
LangGraph channel semantics for a plain `TypedDict` schema). -/
def applyUpdate (s : LabState) (u : StateUpdate) : LabState where
  user_query := s.user_query
  requirements := u.requirements.getD s.requirements
  research := u.research.getD s.research
  architecture := u.architecture.getD s.architecture
  visualization := u.visualization.getD s.visualization
  critic_score := u.critic_score.getD s.critic_score
  critic_feedback := u.critic_feedback.getD s.critic_feedback
  bias_score := u.bias_score.getD s.bias_score
  final_markdown := u.final_markdown.getD s.final_markdown
  iteration_count := u.iteration_count.getD s.iteration_count
  error_messages := u.error_messages.getD s.error_messages

/-! JSON values and a parser modelling Python `json.loads` (the strict
default decoder: objects, arrays, strings with escapes, numbers, `true`,
`false`, `null`, and the non-finite extensions `NaN` / `Infinity` /
`-Infinity`).  Numeric literals are represented as rationals. -/

/-- A decoded JSON value. -/
inductive Json where
  | null
  | bool (b : Bool)
  | num (q : ℚ)
  | inf
  | ninf
  | nan
  | str (s : String)
  | arr (elems : List Json)
  | obj (members : List (String × Json))

/-- JSON insignificant whitespace (per the decoder: space, tab, newline,
carriage return). -/
def isJsonWs (c : Char) : Bool :=
  c = ' ' || c = '\t' || c = '\n' || c = '\r'

/-- Natural number denoted by a list of decimal digit characters. -/
def natOfDigits (ds : List Char) : Nat :=
  ds.foldl (fun acc c => acc * 10 + (c.toNat - 48)) 0

/-- Rational denoted by an integer digit run and a (possibly empty)
fraction digit run: the value `intDs.fracDs` (expressed with
`Rat.divInt`, which is kernel-computable, rather than `+` / `/`, which are
irreducible on `ℚ`). -/
def ratOfParts (neg : Bool) (intDs fracDs : List Char) : ℚ :=
  let n : Nat := natOfDigits intDs * 10 ^ fracDs.length + natOfDigits fracDs
  Rat.divInt (if neg then -(n : Int) else (n : Int)) ((10 ^ fracDs.length : Nat) : Int)

/-- Apply a decimal exponent to a rational (again via `Rat.divInt`). -/
def applyExp (q : ℚ) (negExp : Bool) (e : Nat) : ℚ :=
  if negExp then Rat.divInt q.num ((q.den * 10 ^ e : Nat) : Int)
  else Rat.divInt (q.num * ((10 ^ e : Nat) : Int)) (q.den : Int)

/-- Parse a strict JSON number at the head of the input
(`-?(0|[1-9][0-9]*)(\.[0-9]+)?([eE][+-]?[0-9]+)?`). -/
def parseJsonNumber (cs : List Char) : Option (ℚ × List Char) :=
  let (neg, cs1) := match cs with
    | '-' :: t => (true, t)
    | _ => (false, cs)
  match cs1.span Char.isDigit with
  | ([], _) => none
  | (intDs, rest) =>
    if intDs.length > 1 && intDs.headD '0' = '0' then none
    else
      let (fracDs, rest2) := match rest with
        | '.' :: t =>
          match t.span Char.isDigit with
          | ([], _) => ([], rest)
          | (fs, r) => (fs, r)
        | _ => ([], rest)
      let base := ratOfParts neg intDs fracDs
      match rest2 with
      | 'e' :: t | 'E' :: t =>
        let (negE, t2) := match t with
          | '-' :: u => (true, u)
          | '+' :: u => (false, u)
          | _ => (false, t)
        match t2.span Char.isDigit with
        | ([], _) => none
        | (eDs, rest3) => some (applyExp base negE (natOfDigits eDs), rest3)
      | _ => some (base, rest2)

/-- Value of a hexadecimal digit character. -/
def hexVal (c : Char) : Option Nat :=
  if c.isDigit then some (c.toNat - 48)
  else if 'a' ≤ c ∧ c ≤ 'f' then some (c.toNat - 87)
  else if 'A' ≤ c ∧ c ≤ 'F' then some (c.toNat - 55)
  else none

/-- Parse the body of a JSON string (after the opening quote) up to the
closing quote, decoding escapes; strict mode rejects raw control
characters. -/
def parseJsonStringBody : List Char → Option (List Char × List Char)
  | [] => none
  | '"' :: rest => some ([], rest)
  | '\\' :: e :: rest =>
    match e with
    | '"' => (parseJsonStringBody rest).map (fun (b, r) => ('"' :: b, r))
    | '\\' => (parseJsonStringBody rest).map (fun (b, r) => ('\\' :: b, r))
    | '/' => (parseJsonStringBody rest).map (fun (b, r) => ('/' :: b, r))
    | 'b' => (parseJsonStringBody rest).map (fun (b, r) => ('\x08' :: b, r))
    | 'f' => (parseJsonStringBody rest).map (fun (b, r) => ('\x0c' :: b, r))
    | 'n' => (parseJsonStringBody rest).map (fun (b, r) => ('\n' :: b, r))
    | 'r' => (parseJsonStringBody rest).map (fun (b, r) => ('\r' :: b, r))
    | 't' => (parseJsonStringBody rest).map (fun (b, r) => ('\t' :: b, r))
    | 'u' =>
      match rest with
      | h1 :: h2 :: h3 :: h4 :: rest2 =>
        match hexVal h1, hexVal h2, hexVal h3, hexVal h4 with
        | some a, some b, some c, some d =>
          (parseJsonStringBody rest2).map
            (fun (bd, r) => (Char.ofNat (((a * 16 + b) * 16 + c) * 16 + d) :: bd, r))
        | _, _, _, _ => none
      | _ => none
    | _ => none
  | c :: rest =>
    if c.toNat < 32 then none
    else (parseJsonStringBody rest).map (fun (b, r) => (c :: b, r))

mutual

/-- Parse one JSON value at the head of the input (fuelled recursion; the
fuel only bounds nesting depth). -/
def parseJsonValue : Nat → List Char → Option (Json × List Char)
  | 0, _ => none
  | fuel + 1, cs =>
    match cs with
    | '{' :: rest => parseJsonMembers fuel (rest.dropWhile isJsonWs) []
    | '[' :: rest => parseJsonElems fuel (rest.dropWhile isJsonWs) []
    | '"' :: rest => (parseJsonStringBody rest).map (fun (b, r) => (Json.str (String.mk b), r))
    | 't' :: 'r' :: 'u' :: 'e' :: rest => some (Json.bool true, rest)
    | 'f' :: 'a' :: 'l' :: 's' :: 'e' :: rest => some (Json.bool false, rest)
    | 'n' :: 'u' :: 'l' :: 'l' :: rest => some (Json.null, rest)
    | 'N' :: 'a' :: 'N' :: rest => some (Json.nan, rest)
    | 'I' :: 'n' :: 'f' :: 'i' :: 'n' :: 'i' :: 't' :: 'y' :: rest => some (Json.inf, rest)
    | '-' :: 'I' :: 'n' :: 'f' :: 'i' :: 'n' :: 'i' :: 't' :: 'y' :: rest => some (Json.ninf, rest)
    | _ => (parseJsonNumber cs).map (fun (q, r) => (Json.num q, r))

/-- Parse the members of a JSON object, the opening brace and leading
whitespace already consumed. -/
def parseJsonMembers : Nat → List Char → List (String × Json) → Option (Json × List Char)
  | 0, _, _ => none
  | _ + 1, '}' :: rest, [] => some (Json.obj [], rest)
  | fuel + 1, cs, acc =>
    match cs with
    | '"' :: rest =>
      match parseJsonStringBody rest with
      | none => none
      | some (key, r1) =>
        match r1.dropWhile isJsonWs with
        | ':' :: r2 =>
          match parseJsonValue fuel (r2.dropWhile isJsonWs) with
          | none => none
          | some (v, r3) =>
            let acc2 := acc ++ [(String.mk key, v)]
            match r3.dropWhile isJsonWs with
            | ',' :: r4 => parseJsonMembers fuel (r4.dropWhile isJsonWs) acc2
            | '}' :: r4 => some (Json.obj acc2, r4)
            | _ => none
        | _ => none
    | _ => none

/-- Parse the elements of a JSON array, the opening bracket and leading
whitespace already consumed. -/
def parseJsonElems : Nat → List Char → List Json → Option (Json × List Char)
  | 0, _, _ => none
  | _ + 1, ']' :: rest, [] => some (Json.arr [], rest)
  | fuel + 1, cs, acc =>
    match parseJsonValue fuel cs with
    | none => none
    | some (v, r1) =>
      let acc2 := acc ++ [v]
      match r1.dropWhile isJsonWs with
      | ',' :: r2 => parseJsonElems fuel (r2.dropWhile isJsonWs) acc2
      | ']' :: r2 => some (Json.arr acc2, r2)
      | _ => none

end

/-- Python `json.loads`: skip surrounding whitespace, parse exactly one
value, require the input to be exhausted; `none` models
`json.JSONDecodeError`. -/
def json_loads (s : String) : Option Json :=
  match parseJsonValue (s.length + 1) (s.data.dropWhile isJsonWs) with
  | some (v, rest) => if rest.dropWhile isJsonWs = [] then some v else none
  | none => none

/-- Python `dict.get` on a decoded JSON object (later duplicate keys
override earlier ones, as in the decoder). -/
def objGet (kvs : List (String × Json)) (k : String) : Option Json :=
  kvs.foldl (fun acc kv => if kv.1 = k then some kv.2 else acc) none

/-! Models of the three `re.search` patterns used by
`CriticAgent._extract_score_from_text` and of the single pattern used by
`MetaCriticAgent.process_response`. -/

/-- Characters matched by the regex class `\s` (ASCII range). -/
def isRegexSpace (c : Char) : Bool :=
  c = ' ' || c = '\t' || c = '\n' || c = '\r' || c = '\x0b' || c = '\x0c'

/-- Greedy match of `\d+(?:\.\d+)?` anchored at the head of the input,
returning the matched numeral's value and the remaining input.  Nothing
follows the group in the patterns that use this directly, so no
backtracking arises. -/
def numeralAt (cs : List Char) : Option (ℚ × List Char) :=
  match cs.span Char.isDigit with
  | ([], _) => none
  | (ds, rest) =>
    match rest with
    | '.' :: rest2 =>
      match rest2.span Char.isDigit with
      | ([], _) => some (ratOfParts false ds [], rest)
      | (fs, rest3) => some (ratOfParts false ds fs, rest3)
    | _ => some (ratOfParts false ds [], rest)

/-- Leftmost match of `re.search(r"(\d+(?:\.\d+)?)", ·)`: value of the
first decimal numeral occurring in the text. -/
def searchNum : List Char → Option ℚ
  | [] => none
  | c :: cs =>
    if c.isDigit then (numeralAt (c :: cs)).map Prod.fst
    else searchNum cs

/-- Match `lit[:\s]*(\d+(?:\.\d+)?)` anchored at the head of the input.
`[:\s]` and `\d` are disjoint, so the greedy maximal munch of `[:\s]*` is
the only viable one. -/
def matchLitNum (lit : List Char) (cs : List Char) : Option ℚ :=
  if List.isPrefixOf lit cs then
    (numeralAt ((cs.drop lit.length).dropWhile (fun c => c = ':' || isRegexSpace c))).map Prod.fst
  else none

/-- Leftmost match of `re.search(lit ++ r"[:\s]*(\d+(?:\.\d+)?)", ·)`,
returning the value captured by the group. -/
def searchLitNum (lit : List Char) : List Char → Option ℚ
  | [] => none
  | c :: cs =>
    match matchLitNum lit (c :: cs) with
    | some q => some q
    | none => searchLitNum lit cs

/-- Tail test for the pattern `(\d+(?:\.\d+)?)[/\s]*10`: after the captured
group, munch `[/\s]*` maximally (digits are not in the class, so no shorter
munch can be followed by the literal) and require the literal `10`. -/
def tailSlashTen (cs : List Char) : Bool :=
  match cs.dropWhile (fun c => c = '/' || isRegexSpace c) with
  | '1' :: '0' :: _ => true
  | _ => false

/-- All backtracking candidates of `(\d+(?:\.\d+)?)` anchored at a digit
position, in the engine's preference order: the full digit run with the
fraction part from longest to shortest, then the bare digit run, then its
shorter prefixes.  Each candidate carries its captured value and the
remaining input. -/
def groupCandidates (cs : List Char) : List (ℚ × List Char) :=
  match cs.span Char.isDigit with
  | ([], _) => []
  | (ds, rest) =>
    let fracCands :=
      match rest with
      | '.' :: rest2 =>
        match rest2.span Char.isDigit with
        | ([], _) => []
        | (fs, rest3) =>
          (List.range fs.length).map (fun i =>
            let keep := fs.length - i
            (ratOfParts false ds (fs.take keep), fs.drop keep ++ rest3))
      | _ => []
    let bareCands :=
      (List.range ds.length).map (fun i =>
        let keep := ds.length - i
        (ratOfParts false (ds.take keep) [], ds.drop keep ++ rest))
    fracCands ++ bareCands

/-- Leftmost match of `re.search(r"(\d+(?:\.\d+)?)[/\s]*10", ·)`,
returning the value captured by the group (with full backtracking over the
group's candidates at each starting position). -/
def searchNumOutOfTen : List Char → Option ℚ
  | [] => none
  | c :: cs =>
    match (groupCandidates (c :: cs)).findSome?
        (fun qr => if tailSlashTen qr.2 then some qr.1 else none) with
    | some q => some q
    | none => searchNumOutOfTen cs

/-- Clamp a score into `[0, 10]` — `min(max(score, 0.0), 10.0)` in
`CriticAgent._extract_score_from_text`. -/
def clamp10 (q : ℚ) : ℚ := min (max q 0) 10

/-- `CriticAgent._extract_score_from_text`: apply the three score patterns
in order over the lowercased text, clamp the first captured value into
`[0, 10]`; default to `5.0` when none matches. -/
def extract_score_from_text (text : String) : ℚ :=
  let tl := (asciiLower text).data
  match searchLitNum "score".data tl with
  | some q => clamp10 q
  | none =>
    match searchNumOutOfTen tl with
    | some q => clamp10 q
    | none =>
      match searchLitNum "rating".data tl with
      | some q => clamp10 q
      | none => 5

/-! The quality critic (`app/agents/critic.py`) and the meta-critic
(`app/agents/meta_critic.py`). -/

/-- Kinds of Python exception relevant to `CriticAgent.process_response`:
its `except` clause catches `json.JSONDecodeError`, `KeyError` and
`ValueError`; a `TypeError` or `AttributeError` propagates to the caller. -/
inductive PyErr where
  | valueError (msg : String)
  | typeError (msg : String)
  | attributeError (msg : String)
deriving DecidableEq, Repr

/-- Handle the optional exponent of a Python float literal and require the
input to be exhausted (helper for `pyFloatOfString`). -/
def pyFloatFinish (neg : Bool) (ds fs : List Char) (rest : List Char) : Option PyFloat :=
  let base := ratOfParts neg ds fs
  match rest with
  | [] => some (.fin base)
  | 'e' :: t | 'E' :: t =>
    let (negE, t2) := match t with
      | '-' :: u => (true, u)
      | '+' :: u => (false, u)
      | _ => (false, t)
    match t2.span Char.isDigit with
    | (eDs, []) => if eDs = [] then none else some (.fin (applyExp base negE (natOfDigits eDs)))
    | _ => none
  | _ => none

/-- Python `float()` applied to a string: strip, optional sign, then a
decimal literal (`d+[.d*]`, `.d+`, optional exponent) or one of the
non-finite spellings; anything else raises `ValueError`. -/
def pyFloatOfString (s : String) : Option PyFloat :=
  let cs := (pyStrip s).data
  let (neg, cs1) := match cs with
    | '-' :: t => (true, t)
    | '+' :: t => (false, t)
    | _ => (false, cs)
  let low := cs1.map Char.toLower
  if low = "inf".data ∨ low = "infinity".data then some (if neg then .ninf else .inf)
  else if low = "nan".data then some .nan
  else
    match cs1.span Char.isDigit with
    | ([], rest) =>
      match rest with
      | '.' :: t =>
        match t.span Char.isDigit with
        | ([], _) => none
        | (fs, r) => (pyFloatFinish neg [] fs r)
      | _ => none
    | (ds, rest) =>
      match rest with
      | '.' :: t =>
        let (fs, r) := t.span Char.isDigit
        pyFloatFinish neg ds fs r
      | _ => pyFloatFinish neg ds [] rest

/-- Python `float()` applied to a decoded JSON value, as in
`float(result.get("score", 5.0))`. -/
def pyFloatOfJson : Json → Except PyErr PyFloat
  | .num q => .ok (.fin q)
  | .inf => .ok .inf
  | .ninf => .ok .ninf
  | .nan => .ok .nan
  | .bool b => .ok (.fin (if b then 1 else 0))
  | .str s =>
    match pyFloatOfString s with
    | some f => .ok f
    | none => .error (.valueError ("could not convert string to float: " ++ s))
  | .null => .error (.typeError "float() argument must be a string or a real number, not NoneType")
  | .arr _ => .error (.typeError "float() argument must be a string or a real number, not list")
  | .obj _ => .error (.typeError "float() argument must be a string or a real number, not dict")

/-- Best-effort rendering of a rational as a Python decimal literal, used
only when a decoded JSON value is coerced into a string-typed state field
or into the rendered output. -/
def ratRepr (q : ℚ) : String :=
  let sign := if q < 0 then "-" else ""
  let q := |q|
  match (List.range 30).find? (fun k => ((10 : ℕ) ^ k) % q.den = 0) with
  | some k =>
    let scaled := (q * (10 : ℚ) ^ k).num.toNat
    let digits := toString scaled
    let digits := if digits.length ≤ k then String.mk (List.replicate (k + 1 - digits.length) '0') ++ digits else digits
    if k = 0 then sign ++ digits ++ ".0"
    else sign ++ digits.dropRight k ++ "." ++ digits.takeRight k
  | none => sign ++ toString q.num.toNat ++ "/" ++ toString q.den

/-- Rendering of a `PyFloat` as Python prints it. -/
def pyFloatRepr : PyFloat → String
  | .fin q => ratRepr q
  | .inf => "inf"
  | .ninf => "-inf"
  | .nan => "nan"

/-- Python `str()` of a decoded JSON value (used when a non-string JSON
`feedback` value lands in the string-typed `critic_feedback` field). -/
def pyStrOfJson : Json → String
  | .null => "None"
  | .bool b => if b then "True" else "False"
  | .num q => ratRepr q
  | .inf => "inf"
  | .ninf => "-inf"
  | .nan => "nan"
  | .str s => s
  | .arr _ => "[...]"
  | .obj _ => "\x7b...\x7d"

/-- The `critic_feedback` value stored on the JSON-success path:
`result.get("feedback", "No feedback provided")`. -/
def feedbackOf (kvs : List (String × Json)) : String :=
  match objGet kvs "feedback" with
  | none => "No feedback provided"
  | some v => pyStrOfJson v

/-- The update built by `CriticAgent.process_response` in the fallback
branch (`except (json.JSONDecodeError, KeyError, ValueError)`). -/
def criticFallback (response : String) : StateUpdate where
  critic_score := some (.fin (extract_score_from_text response))
  critic_feedback := some ("Parsing failed. Raw response: " ++ pyTake response 500)

/-- The body of `CriticAgent.process_response` after a successful
`json.loads` on a JSON object: convert the `score` member with `float`
(a `ValueError` is caught by the fallback clause, a `TypeError` is not). -/
def criticHandleObj (response : String) (kvs : List (String × Json)) :
    Except String StateUpdate :=
  match pyFloatOfJson ((objGet kvs "score").getD (Json.num 5)) with
  | .ok f => .ok { critic_score := some f, critic_feedback := some (feedbackOf kvs) }
  | .error (.valueError _) => .ok (criticFallback response)
  | .error (.typeError m) => .error m
  | .error (.attributeError m) => .error m

/-- `CriticAgent.process_response`: strip an optional leading ```` ```json ````
fence and trailing ```` ``` ```` fence, `json.loads` the result; on decode
failure fall back to `_extract_score_from_text`; on a decoded non-object the
`.get` call raises `AttributeError`, which the `except` clause does not
catch and which therefore propagates to `BaseAgent.execute`. -/
def critic_process (response : String) : Except String StateUpdate :=
  let rc := pyStrip response
  let rc := if pyStartsWith rc "```json" then pyDrop rc 7 else rc
  let rc := if pyEndsWith rc "```" then pyDropRight rc 3 else rc
  match json_loads (pyStrip rc) with
  | none => .ok (criticFallback response)
  | some (Json.obj kvs) => criticHandleObj response kvs
  | some _ => .error "AttributeError: object has no attribute get"

/-- The keyword tiers of `MetaCriticAgent._analyze_text_for_risk`. -/
def majorWords : List String := ["hallucination", "false", "incorrect", "misleading", "bias"]

/-- Moderate-tier risk keywords. -/
def moderateWords : List String := ["concern", "issue", "problem", "questionable", "unclear"]

/-- Minor-tier risk keywords. -/
def minorWords : List String := ["minor", "small", "trivial", "acceptable"]

/-- Number of tier words occurring in the (already lowercased) text. -/
def countHits (ws : List String) (textLower : String) : Nat :=
  (ws.filter (fun w => isSubstr w.data textLower.data)).length

/-- `MetaCriticAgent._analyze_text_for_risk`: keyword-weighted fallback
risk over the three tiers. -/
def analyze_text_for_risk (text : String) : ℚ :=
  let tl := asciiLower text
  let major := countHits majorWords tl
  let moderate := countHits moderateWords tl
  let minor := countHits minorWords tl
  if major > 0 then min (7/10 + (major : ℚ) * (1/10)) 1
  else if moderate > 0 then min (3/10 + (moderate : ℚ) * (1/10)) (6/10)
  else if minor > 0 then min (1/10 + (minor : ℚ) * (1/20)) (3/10)
  else 1/5

/-- `MetaCriticAgent.process_response`: the first decimal numeral in the
stripped response, clamped into `[0, 1]`; otherwise the keyword
heuristic. -/
def meta_process (response : String) : StateUpdate :=
  match searchNum (pyStrip response).data with
  | some q => { bias_score := some (.fin (min (max q 0) 1)) }
  | none => { bias_score := some (.fin (analyze_text_for_risk response)) }

/-! The agent execution contract (`app/agents/base.py`) and the six
concrete agents. -/

/-- An agent: a name, the ordered list of required state fields checked by
`_validate_inputs`, and the `process_response` parser.  `process` returns
`.error` to model an exception escaping `process_response` (which
`execute`'s outer `except` then catches). -/
structure Agent where
  name : String
  required_fields : List String
  process : String → LabState → Except String StateUpdate

/-- `state.get(field, "")` for the string-valued state fields (the only
fields ever listed in `_get_required_fields`). -/
def getStrField (s : LabState) (f : String) : String :=
  if f = "user_query" then s.user_query
  else if f = "requirements" then s.requirements
  else if f = "research" then s.research
  else if f = "architecture" then s.architecture
  else if f = "visualization" then s.visualization
  else ""

/-- `SecureLLMClient.validate_input` (`app/core/llm.py`): reject empty or
whitespace-only text and text longer than 50000 characters. -/
def validate_input (t : String) : Bool :=
  !(pyStrip t = "") && t.length ≤ 50000

/-- Check one required field as `BaseAgent._validate_inputs` does; `some`
is the `AgentError` message raised. -/
def validateField (s : LabState) (f : String) : Option String :=
  let v := getStrField s f
  if pyStrip v = "" then
    some ("Required field '" ++ f ++ "' is missing or empty")
  else if !(validate_input v) then
    some ("Invalid input in field '" ++ f ++ "'")
  else none

/-- `BaseAgent._validate_inputs`: the first failing required field raises. -/
def validateInputs (ag : Agent) (s : LabState) : Except String Unit :=
  match ag.required_fields.findSome? (validateField s) with
  | some m => .error m
  | none => .ok ()

/-- The body of the `try` block of `BaseAgent.execute`: validate the
inputs, perform the single external generation call (`llm` is the
collaborator's behaviour for this call: the response text, or the message
of the exception it raises), then parse the response.  The `.error` case is
the exception reaching the outer `except`. -/
def executeCore (ag : Agent) (llm : Except String String) (s : LabState) :
    Except String StateUpdate :=
  match validateInputs ag s with
  | .error m => .error m
  | .ok _ =>
    match llm with
    | .error e => .error e
    | .ok response => ag.process response s

/-- `BaseAgent.execute`: on success, the parsed update plus
`iteration_count := current + 1`; on any failure, no stage-output field,
one error description `"<name> failed: <msg>"` appended to
`error_messages`, and `iteration_count` re-emitted unchanged.  Total: the
outer `except Exception` means `execute` never raises. -/
def execute (ag : Agent) (llm : Except String String) (s : LabState) : StateUpdate :=
  match executeCore ag llm s with
  | .ok r => { r with iteration_count := some (s.iteration_count + 1) }
  | .error e =>
    { error_messages := some (s.error_messages ++ [ag.name ++ " failed: " ++ e]),
      iteration_count := some s.iteration_count }

/-- `PlannerAgent`: stores the stripped response as `requirements`. -/
def plannerAgent : Agent :=
  ⟨"planner", ["user_query"], fun r _ => .ok { requirements := some (pyStrip r) }⟩

/-- `ResearcherAgent`: stores the stripped response as `research`. -/
def researcherAgent : Agent :=
  ⟨"researcher", ["requirements"], fun r _ => .ok { research := some (pyStrip r) }⟩

/-- `ArchitectAgent`: stores the stripped response as `architecture`. -/
def architectAgent : Agent :=
  ⟨"architect", ["research", "requirements"], fun r _ => .ok { architecture := some (pyStrip r) }⟩

/-- `VisualizerAgent`: stores the stripped response as `visualization`. -/
def visualizerAgent : Agent :=
  ⟨"visualizer", ["architecture"], fun r _ => .ok { visualization := some (pyStrip r) }⟩

/-- `CriticAgent`: JSON score parsing with regex fallback. -/
def criticAgent : Agent :=
  ⟨"critic", ["requirements", "research", "architecture"], fun r _ => critic_process r⟩

/-- `MetaCriticAgent`: leading-number extraction with keyword fallback. -/
def metaCriticAgent : Agent :=
  ⟨"meta_critic", ["architecture", "requirements"], fun r _ => .ok (meta_process r)⟩

/-! The router, the finalizer and the compiled graph
(`app/graph/builder.py`). -/

/-- Router settings, read once from `app/core/config.py` (`max_retries`
default 3, `critic_threshold` default 7.0). -/
structure Settings where
  max_retries : Nat
  critic_threshold : ℚ
deriving DecidableEq, Repr

/-- The configuration defaults. -/
def defaultSettings : Settings := ⟨3, 7⟩

/-- The router's decision. -/
inductive Route where
  | retry
  | proceed
deriving DecidableEq, Repr

/-- The body of the `try` block of `WorkflowBuilder._should_retry`: the
iteration ceiling first, then the score threshold. -/
def shouldRetryBody (st : Settings) (s : LabState) : Route :=
  if st.max_retries ≤ s.iteration_count then .proceed
  else if PyFloat.lt s.critic_score (.fin st.critic_threshold) then .retry
  else .proceed

/-- `WorkflowBuilder._should_retry`: any exception inside the body is
caught and mapped to "proceed" (fail safe); `exc` is the exception the
evaluation would raise, `none` when it evaluates normally. -/
def should_retry (st : Settings) (s : LabState) (exc : Option String) : Route :=
  match exc with
  | some _ => .proceed
  | none => shouldRetryBody st s

/-- The Score / Feedback / Bias Risk lines of the evaluation section, each
included only when the corresponding state value is truthy. -/
def evalSectionLines (s : LabState) : List String :=
  (if s.critic_score.truthy then ["**Score:** " ++ pyFloatRepr s.critic_score ++ "/10"] else [])
    ++ (if s.critic_feedback ≠ "" then ["**Feedback:** " ++ s.critic_feedback] else [])
    ++ (if s.bias_score.truthy then ["**Bias Risk:** " ++ pyFloatRepr s.bias_score] else [])

/-- The four stage-output sections of `WorkflowBuilder._finalize_output`:
each included when its state value is truthy (a non-empty string), under
its fixed heading, in this fixed order. -/
def stageSections (s : LabState) : List String :=
  (if s.requirements ≠ "" then ["# Requirements\n" ++ s.requirements] else [])
    ++ (if s.research ≠ "" then ["# Research Notes\n" ++ s.research] else [])
    ++ (if s.architecture ≠ "" then ["# Architecture Design\n" ++ s.architecture] else [])
    ++ (if s.visualization ≠ "" then ["# Visualization\n" ++ s.visualization] else [])

/-- The full section list built by `WorkflowBuilder._finalize_output`: the
stage sections, then the evaluation section when it has any line. -/
def finalSections (s : LabState) : List String :=
  stageSections s
    ++ (if evalSectionLines s ≠ [] then
          ["# Evaluation\n" ++ String.intercalate "\n" (evalSectionLines s)] else [])

/-- `WorkflowBuilder._finalize_output`: join the sections with the fixed
delimiter; if rendering raises (`exc`), return the literal fallback text
and append the failure to `error_messages`. -/
def finalize_output (s : LabState) (exc : Option String) : StateUpdate :=
  match exc with
  | some e =>
    { final_markdown := some "Error generating final output",
      error_messages := some (s.error_messages ++ [e]) }
  | none =>
    { final_markdown := some (String.intercalate "\n\n---\n\n" (finalSections s)) }

/-- The nodes of the compiled workflow graph, plus the terminal. -/
inductive Node where
  | planner
  | researcher
  | architect
  | visualizer
  | critic
  | meta_critic
  | finalize
  | done
deriving DecidableEq, Repr

/-- A point in a run: current node, current state, number of external
generation calls consumed so far (indexing the oracle), and — as a ghost
observer for the retry-bound claims — the number of times the retry edge
has been taken. -/
structure Config where
  node : Node
  state : LabState
  calls : Nat
  retries : Nat
deriving DecidableEq, Repr

/-- One agent node: execute the agent against the next oracle response,
merge its partial update, advance along the fixed edge. -/
def agentStep (ag : Agent) (o : Nat → Except String String) (c : Config) (next : Node) : Config :=
  { node := next,
    state := applyUpdate c.state (execute ag (o c.calls) c.state),
    calls := c.calls + 1,
    retries := c.retries }

/-- The executor's small-step semantics: the fixed edges of
`build_graph`, with the single conditional edge out of `critic` decided by
`_should_retry` on the merged post-critic state ("retry" → `researcher`,
"proceed" → `meta_critic`). -/
def step (st : Settings) (o : Nat → Except String String) (c : Config) : Config :=
  match c.node with
  | .planner => agentStep plannerAgent o c .researcher
  | .researcher => agentStep researcherAgent o c .architect
  | .architect => agentStep architectAgent o c .visualizer
  | .visualizer => agentStep visualizerAgent o c .critic
  | .critic =>
    let s2 := applyUpdate c.state (execute criticAgent (o c.calls) c.state)
    match should_retry st s2 none with
    | .retry => ⟨.researcher, s2, c.calls + 1, c.retries + 1⟩
    | .proceed => ⟨.meta_critic, s2, c.calls + 1, c.retries⟩
  | .meta_critic => agentStep metaCriticAgent o c .finalize
  | .finalize => ⟨.done, applyUpdate c.state (finalize_output c.state none), c.calls, c.retries⟩
  | .done => c

/-- Iterate the executor `n` steps from a configuration. -/
def run (st : Settings) (o : Nat → Except String String) (c0 : Config) : Nat → Config
  | 0 => c0
  | n + 1 => step st o (run st o c0 n)

/-- The initial pipeline state built in `app/api/routes.py` for a query. -/
def initState (q : String) : LabState :=
  ⟨q, "", "", "", "", .fin 0, "", .fin 0, "", 0, []⟩

/-- The initial configuration: entry node `planner`. -/
def initConfig (q : String) : Config :=
  ⟨.planner, initState q, 0, 0⟩

/-! Auxiliary definitions for the theorems: concrete oracles, trace
predicates, and a spec-side rendering to compare the finalizer against. -/

/-- A collaborator whose every call raises. -/
def failOracle : Nat → Except String String := fun _ => .error "boom"

/-- A collaborator whose every call returns the same plain text (so the
critic's JSON parse fails and its regex fallback scores it 3.0). -/
def okOracle : Nat → Except String String := fun _ => .ok "score: 3"

/-- A collaborator for the upstream-degradation scenario: the architect's
calls (the third and seventh overall) fail, every other call returns
`"TEXT"`. -/
def c7Oracle : Nat → Except String String := fun k =>
  if k = 2 ∨ k = 6 then .error "llm down" else .ok "TEXT"

/-- The critic invocation performed at step `n` of a run (when step `n`
starts at the critic node) increments `iteration_count` — i.e. that
invocation succeeded. -/
def criticIncrAt (st : Settings) (o : Nat → Except String String) (c0 : Config) (n : Nat) : Prop :=
  (run st o c0 n).node = Node.critic →
    (step st o (run st o c0 n)).state.iteration_count
      = (run st o c0 n).state.iteration_count + 1

instance (st : Settings) (o : Nat → Except String String) (c0 : Config) (n : Nat) :
    Decidable (criticIncrAt st o c0 n) := by
  unfold criticIncrAt; infer_instance

/-- The second of the two quality-critic fallback inputs named by the spec:
`"I'd rate this 6/10 overall"` (built with an explicit apostrophe
character). -/
def idRateText : String :=
  "I" ++ String.singleton (Char.ofNat 39) ++ "d rate this 6/10 overall"

/-- The heading / content pairs of the spec's rendering contract, in the
spec's fixed order. -/
def specHeadings (s : LabState) : List (String × String) :=
  [("# Requirements", s.requirements),
   ("# Research Notes", s.research),
   ("# Architecture Design", s.architecture),
   ("# Visualization", s.visualization)]

/-- Rendering following the spec's words, for comparison with the source's
`_finalize_output`: whichever of the four stage outputs are non-empty, each
under its fixed heading, in the fixed order, joined by the fixed delimiter,
followed by the evaluation section when it has content. -/
def renderSpec (s : LabState) : String :=
  String.intercalate "\n\n---\n\n"
    ((specHeadings s).filterMap
        (fun p => if p.2 = "" then none else some (p.1 ++ "\n" ++ p.2))
      ++ (if evalSectionLines s = [] then []
          else ["# Evaluation\n" ++ String.intercalate "\n" (evalSectionLines s)]))

/-! Theorems. -/

/-- On success `execute` sets `iteration_count` to the current value plus
one; on failure it re-emits the current value. -/
theorem applyUpdate_execute_iteration (ag : Agent) (llm : Except String String) (s : LabState) :
    (applyUpdate s (execute ag llm s)).iteration_count = s.iteration_count
    ∨ (applyUpdate s (execute ag llm s)).iteration_count = s.iteration_count + 1 := by
  unfold execute
  cases h : executeCore ag llm s <;> simp [applyUpdate]

/-- An agent node step never decreases `iteration_count`. -/
theorem agentStep_iteration_mono (ag : Agent) (o : Nat → Except String String) (c : Config)
    (nx : Node) : c.state.iteration_count ≤ (agentStep ag o c nx).state.iteration_count := by
  simp only [agentStep]
  rcases applyUpdate_execute_iteration ag (o c.calls) c.state with h | h <;> simp [h]

/-- `iteration_count` never decreases across a step of the executor. -/
theorem step_iteration_mono (st : Settings) (o : Nat → Except String String) (c : Config) :
    c.state.iteration_count ≤ (step st o c).state.iteration_count := by
  obtain ⟨node, s, k, r⟩ := c
  cases node
  case planner => exact agentStep_iteration_mono plannerAgent o _ _
  case researcher => exact agentStep_iteration_mono researcherAgent o _ _
  case architect => exact agentStep_iteration_mono architectAgent o _ _
  case visualizer => exact agentStep_iteration_mono visualizerAgent o _ _
  case critic =>
    simp only [step]
    rcases hd : should_retry st (applyUpdate s (execute criticAgent (o k) s)) none with _ | _ <;>
      rcases applyUpdate_execute_iteration criticAgent (o k) s with h | h <;> simp [h]
  case meta_critic => exact agentStep_iteration_mono metaCriticAgent o _ _
  case finalize => simp [step, applyUpdate, finalize_output]
  case done => exact Nat.le_refl _

/-- C3: the Router is a pure function of `(iteration_count, max_attempts,
score, threshold)` with the ceiling checked first (`proceed` regardless of
score), then `score < threshold` routed to `"retry"` — whose edge leads to
the researcher node, not the planner — else `"proceed"`; and an internal
error evaluating the decision yields `"proceed"`. -/
theorem c3_router (st : Settings) (s : LabState) :
    (st.max_retries ≤ s.iteration_count → should_retry st s none = Route.proceed)
    ∧ (s.iteration_count < st.max_retries →
        PyFloat.lt s.critic_score (.fin st.critic_threshold) = true →
        should_retry st s none = Route.retry)
    ∧ (s.iteration_count < st.max_retries →
        PyFloat.lt s.critic_score (.fin st.critic_threshold) = false →
        should_retry st s none = Route.proceed)
    ∧ (∀ e : String, should_retry st s (some e) = Route.proceed)
    ∧ (∀ s2 : LabState, s.iteration_count = s2.iteration_count →
        s.critic_score = s2.critic_score → should_retry st s none = should_retry st s2 none)
    ∧ (∀ (o : Nat → Except String String) (c : Config), c.node = Node.critic →
        should_retry st (applyUpdate c.state (execute criticAgent (o c.calls) c.state)) none
          = Route.retry →
        (step st o c).node = Node.researcher) := by
  refine ⟨?_, ?_, ?_, ?_, ?_, ?_⟩
  · intro h; simp [should_retry, shouldRetryBody, h]
  · intro h1 h2; simp [should_retry, shouldRetryBody, Nat.not_le.mpr h1, h2]
  · intro h1 h2; simp [should_retry, shouldRetryBody, Nat.not_le.mpr h1, h2]
  · intro e; rfl
  · intro s2 h1 h2; simp [should_retry, shouldRetryBody, h1, h2]
  · intro o c hnode hd
    obtain ⟨node, st2, k, r⟩ := c
    cases hnode
    simp only [step] at hd ⊢
    simp [hd]

/-- Witness for `c3_router`: with the default settings, one iteration done
and a zero score, the decision is `"retry"`. -/
theorem c3_router_witness :
    ((1 : Nat) < defaultSettings.max_retries
      ∧ PyFloat.lt (PyFloat.fin 0) (.fin defaultSettings.critic_threshold) = true)
    ∧ should_retry defaultSettings ⟨"q", "r", "s", "a", "v", .fin 0, "", .fin 0, "", 1, []⟩ none
        = Route.retry :=
  ⟨⟨by decide, by decide⟩,
    (c3_router defaultSettings ⟨"q", "r", "s", "a", "v", .fin 0, "", .fin 0, "", 1, []⟩).2.1
      (by decide) (by decide)⟩

/-- C6: for every agent, input state and collaborator behaviour, when the
invocation fails (`executeCore` raises), `execute` — which is total, never
raising — returns an update with no stage-output field, so the merged state
keeps every stage-output field unchanged, and appends exactly one error
description naming the stage to the end of the error log. -/
theorem c6_failure_containment (ag : Agent) (llm : Except String String) (s : LabState)
    (e : String) (h : executeCore ag llm s = .error e) :
    (execute ag llm s).requirements = none
    ∧ (execute ag llm s).research = none
    ∧ (execute ag llm s).architecture = none
    ∧ (execute ag llm s).visualization = none
    ∧ (execute ag llm s).critic_score = none
    ∧ (execute ag llm s).critic_feedback = none
    ∧ (execute ag llm s).bias_score = none
    ∧ (execute ag llm s).final_markdown = none
    ∧ (applyUpdate s (execute ag llm s)).requirements = s.requirements
    ∧ (applyUpdate s (execute ag llm s)).research = s.research
    ∧ (applyUpdate s (execute ag llm s)).architecture = s.architecture
    ∧ (applyUpdate s (execute ag llm s)).visualization = s.visualization
    ∧ (applyUpdate s (execute ag llm s)).critic_score = s.critic_score
    ∧ (applyUpdate s (execute ag llm s)).critic_feedback = s.critic_feedback
    ∧ (applyUpdate s (execute ag llm s)).bias_score = s.bias_score
    ∧ (applyUpdate s (execute ag llm s)).final_markdown = s.final_markdown
    ∧ (applyUpdate s (execute ag llm s)).error_messages
        = s.error_messages ++ [ag.name ++ " failed: " ++ e] := by
  unfold execute
  rw [h]
  simp [applyUpdate]

/-- Witness for `c6_failure_containment`: the researcher invoked on the
fresh initial state (empty `requirements`) fails its precondition, leaves
the state's outputs unchanged and appends its error. -/
theorem c6_failure_containment_witness :
    executeCore researcherAgent (Except.ok "resp") (initState "hi")
        = .error "Required field 'requirements' is missing or empty"
    ∧ (applyUpdate (initState "hi")
          (execute researcherAgent (Except.ok "resp") (initState "hi"))).error_messages
        = ["researcher failed: Required field 'requirements' is missing or empty"] :=
  ⟨by decide,
    (c6_failure_containment researcherAgent (Except.ok "resp") (initState "hi")
      "Required field 'requirements' is missing or empty" (by decide)).2.2.2.2.2.2.2.2.2.2.2.2.2.2.2.2⟩

/-- C8: for every state the Finalizer renders exactly the non-empty stage
outputs under their fixed headings, in the fixed order, joined by the fixed
delimiter, followed by the evaluation section when it has content (the
spec-side `renderSpec`); if rendering raises, `final_markdown` is the fixed
literal fallback and the failure is appended to the error log; and
`final_markdown` is set on every path. -/
theorem c8_finalizer (s : LabState) :
    (finalize_output s none).final_markdown = some (renderSpec s)
    ∧ (∀ e : String,
        finalize_output s (some e)
          = { final_markdown := some "Error generating final output",
              error_messages := some (s.error_messages ++ [e]) })
    ∧ (∀ exc : Option String, (finalize_output s exc).final_markdown ≠ none) := by
  refine ⟨?_, fun e => rfl, ?_⟩
  · have hsec : stageSections s
        = (specHeadings s).filterMap
            (fun p => if p.2 = "" then none else some (p.1 ++ "\n" ++ p.2)) := by
      by_cases h1 : s.requirements = "" <;>
        by_cases h2 : s.research = "" <;>
          by_cases h3 : s.architecture = "" <;>
            by_cases h4 : s.visualization = "" <;>
              simp [stageSections, specHeadings, h1, h2, h3, h4]
    by_cases h5 : evalSectionLines s = [] <;>
      simp [finalize_output, renderSpec, finalSections, hsec, h5]
  · intro exc
    cases exc <;> simp [finalize_output]

/-- C10: each evaluation line is emitted only when its value is truthy, so
a critic score of exactly `0.0`, an empty feedback string, or a bias risk
of exactly `0.0` produces no Score / Feedback / Bias Risk line, and when
all three are falsy the evaluation section is omitted entirely. -/
theorem c10_eval_truthiness (s : LabState) :
    (s.critic_score = PyFloat.fin 0 →
      evalSectionLines s
        = (if s.critic_feedback ≠ "" then ["**Feedback:** " ++ s.critic_feedback] else [])
          ++ (if s.bias_score.truthy then ["**Bias Risk:** " ++ pyFloatRepr s.bias_score] else []))
    ∧ (s.critic_feedback = "" →
      evalSectionLines s
        = (if s.critic_score.truthy then ["**Score:** " ++ pyFloatRepr s.critic_score ++ "/10"] else [])
          ++ (if s.bias_score.truthy then ["**Bias Risk:** " ++ pyFloatRepr s.bias_score] else []))
    ∧ (s.bias_score = PyFloat.fin 0 →
      evalSectionLines s
        = (if s.critic_score.truthy then ["**Score:** " ++ pyFloatRepr s.critic_score ++ "/10"] else [])
          ++ (if s.critic_feedback ≠ "" then ["**Feedback:** " ++ s.critic_feedback] else []))
    ∧ (s.critic_score = PyFloat.fin 0 → s.critic_feedback = "" → s.bias_score = PyFloat.fin 0 →
      evalSectionLines s = []
      ∧ (finalize_output s none).final_markdown
          = some (String.intercalate "\n\n---\n\n" (stageSections s))) := by
  refine ⟨?_, ?_, ?_, ?_⟩
  · intro h1; simp [evalSectionLines, h1, PyFloat.truthy]
  · intro h2; simp [evalSectionLines, h2]
  · intro h3; simp [evalSectionLines, h3, PyFloat.truthy]
  · intro h1 h2 h3
    have he : evalSectionLines s = [] := by
      simp [evalSectionLines, h1, h2, h3, PyFloat.truthy]
    exact ⟨he, by simp [finalize_output, finalSections, he]⟩

/-- Witness for `c10_eval_truthiness`: a completed state whose critic
score, feedback and bias risk are all falsy renders no evaluation
section. -/
theorem c10_eval_truthiness_witness :
    ((⟨"q", "REQ", "", "", "", .fin 0, "", .fin 0, "", 2, []⟩ : LabState).critic_score
        = PyFloat.fin 0
      ∧ (⟨"q", "REQ", "", "", "", .fin 0, "", .fin 0, "", 2, []⟩ : LabState).critic_feedback = ""
      ∧ (⟨"q", "REQ", "", "", "", .fin 0, "", .fin 0, "", 2, []⟩ : LabState).bias_score
        = PyFloat.fin 0)
    ∧ evalSectionLines ⟨"q", "REQ", "", "", "", .fin 0, "", .fin 0, "", 2, []⟩ = []
    ∧ (finalize_output ⟨"q", "REQ", "", "", "", .fin 0, "", .fin 0, "", 2, []⟩ none).final_markdown
        = some (String.intercalate "\n\n---\n\n"
            (stageSections ⟨"q", "REQ", "", "", "", .fin 0, "", .fin 0, "", 2, []⟩)) :=
  ⟨⟨rfl, rfl, rfl⟩,
    (c10_eval_truthiness ⟨"q", "REQ", "", "", "", .fin 0, "", .fin 0, "", 2, []⟩).2.2.2
      rfl rfl rfl⟩

/-- C9: when the critic response decodes as a JSON object with a numeric
`score`, that number is stored as `critic_score` without any clamping —
values outside `[0, 10]` included; the `[0, 10]` clamp applies only on the
regex-fallback path, whose result always lies in `[0, 10]`. -/
theorem c9_json_score_unclamped :
    (∀ (response : String) (kvs : List (String × Json)) (q : ℚ),
        objGet kvs "score" = some (Json.num q) →
        criticHandleObj response kvs
          = .ok { critic_score := some (.fin q), critic_feedback := some (feedbackOf kvs) })
    ∧ critic_process "\x7b\"score\": 100, \"feedback\": \"x\"\x7d"
        = .ok { critic_score := some (.fin 100), critic_feedback := some "x" }
    ∧ critic_process "\x7b\"score\": -5\x7d"
        = .ok { critic_score := some (.fin (-5)), critic_feedback := some "No feedback provided" }
    ∧ (∀ t : String, 0 ≤ extract_score_from_text t ∧ extract_score_from_text t ≤ 10) := by
  have hclamp : ∀ q : ℚ, 0 ≤ clamp10 q ∧ clamp10 q ≤ 10 := fun q =>
    ⟨le_min (le_max_right q 0) (by norm_num), min_le_right _ 10⟩
  refine ⟨?_, by decide, by decide, ?_⟩
  · intro response kvs q h
    simp [criticHandleObj, h, pyFloatOfJson]
  · intro t
    rcases h1 : searchLitNum "score".data (asciiLower t).data with _ | q
    · rcases h2 : searchNumOutOfTen (asciiLower t).data with _ | q
      · rcases h3 : searchLitNum "rating".data (asciiLower t).data with _ | q
        · simp only [extract_score_from_text, h1, h2, h3]
          norm_num
        · simp only [extract_score_from_text, h1, h2, h3]
          exact hclamp q
      · simp only [extract_score_from_text, h1, h2]
        exact hclamp q
    · simp only [extract_score_from_text, h1]
      exact hclamp q

/-- Witness for `c9_json_score_unclamped`: a decoded object carrying
`score = 100` is stored as `critic_score = 100`. -/
theorem c9_json_score_unclamped_witness :
    objGet [("score", Json.num 100)] "score" = some (Json.num 100)
    ∧ criticHandleObj "resp" [("score", Json.num 100)]
        = .ok { critic_score := some (.fin 100),
                critic_feedback := some (feedbackOf [("score", Json.num 100)]) } :=
  ⟨rfl, (c9_json_score_unclamped).1 "resp" [("score", Json.num 100)] 100 rfl⟩

/-- C4: the three quality-critic parsing cases of the spec: the fenced JSON
input yields `score = 8.5` with `feedback = "solid"`; the invalid-JSON
input `"I'd rate this 6/10 overall"` yields `score = 6.0` via the fallback;
and any text matched by none of the three numeric patterns (tried in order
over the lowercased text, results clamped into `[0, 10]`) yields the
neutral default `5.0`. -/
theorem c4_critic_parsing_cases :
    (critic_process "```json\n\x7b\"score\": 8.5, \"feedback\": \"solid\"\x7d\n```"
        = .ok { critic_score := some (.fin (Rat.divInt 17 2)), critic_feedback := some "solid" }
      ∧ (Rat.divInt 17 2 : ℚ) = 8.5)
    ∧ critic_process idRateText
        = .ok { critic_score := some (.fin 6),
                critic_feedback := some ("Parsing failed. Raw response: " ++ idRateText) }
    ∧ (∀ t : String,
        searchLitNum "score".data (asciiLower t).data = none →
        searchNumOutOfTen (asciiLower t).data = none →
        searchLitNum "rating".data (asciiLower t).data = none →
        extract_score_from_text t = 5) := by
  refine ⟨⟨by decide, by rw [Rat.divInt_eq_div]; norm_num⟩, by decide, ?_⟩
  intro t h1 h2 h3
  simp only [extract_score_from_text, h1, h2, h3]

/-- Witness for `c4_critic_parsing_cases`: a text with none of the three
numeric patterns falls back to the neutral score `5.0`. -/
theorem c4_critic_parsing_cases_witness :
    (searchLitNum "score".data (asciiLower "no numerals at all").data = none
      ∧ searchNumOutOfTen (asciiLower "no numerals at all").data = none
      ∧ searchLitNum "rating".data (asciiLower "no numerals at all").data = none)
    ∧ extract_score_from_text "no numerals at all" = 5 :=
  ⟨⟨by decide, by decide, by decide⟩,
    c4_critic_parsing_cases.2.2 "no numerals at all" (by decide) (by decide) (by decide)⟩

/-- C5: the meta-critic stores the first number of the response clamped
into `[0, 1]` (`"0.2 - minor stylistic issues"` yields `0.2`), and on
numberless text applies the keyword-tier heuristic exactly; in particular
numberless text containing `"hallucination"` and `"bias"` and no other
major-tier word yields risk `0.9`. -/
theorem c5_meta_parsing_cases :
    (meta_process "0.2 - minor stylistic issues"
        = { bias_score := some (.fin (Rat.divInt 1 5)) }
      ∧ (Rat.divInt 1 5 : ℚ) = 0.2)
    ∧ (∀ (t : String) (q : ℚ), searchNum (pyStrip t).data = some q →
        meta_process t = { bias_score := some (.fin (min (max q 0) 1)) })
    ∧ (∀ t : String, searchNum (pyStrip t).data = none →
        (0 < countHits majorWords (asciiLower t) →
          meta_process t = { bias_score := some (.fin
            (min (7/10 + (countHits majorWords (asciiLower t) : ℚ) * (1/10)) 1)) })
        ∧ (countHits majorWords (asciiLower t) = 0 →
            0 < countHits moderateWords (asciiLower t) →
          meta_process t = { bias_score := some (.fin
            (min (3/10 + (countHits moderateWords (asciiLower t) : ℚ) * (1/10)) (6/10))) })
        ∧ (countHits majorWords (asciiLower t) = 0 →
            countHits moderateWords (asciiLower t) = 0 →
            0 < countHits minorWords (asciiLower t) →
          meta_process t = { bias_score := some (.fin
            (min (1/10 + (countHits minorWords (asciiLower t) : ℚ) * (1/20)) (3/10))) })
        ∧ (countHits majorWords (asciiLower t) = 0 →
            countHits moderateWords (asciiLower t) = 0 →
            countHits minorWords (asciiLower t) = 0 →
          meta_process t = { bias_score := some (.fin (1/5)) }))
    ∧ (∀ t : String, searchNum (pyStrip t).data = none →
        isSubstr "hallucination".data (asciiLower t).data = true →
        isSubstr "bias".data (asciiLower t).data = true →
        isSubstr "false".data (asciiLower t).data = false →
        isSubstr "incorrect".data (asciiLower t).data = false →
        isSubstr "misleading".data (asciiLower t).data = false →
        meta_process t = { bias_score := some (.fin (9/10)) }) := by
  refine ⟨⟨by decide, by rw [Rat.divInt_eq_div]; norm_num⟩, ?_, ?_, ?_⟩
  · intro t q h
    simp only [meta_process, h]
  · intro t h
    refine ⟨?_, ?_, ?_, ?_⟩
    · intro hmaj
      simp only [meta_process, h, analyze_text_for_risk, if_pos hmaj]
    · intro hmaj hmod
      simp only [meta_process, h, analyze_text_for_risk, hmaj, if_pos hmod]
      simp
    · intro hmaj hmod hmin
      simp only [meta_process, h, analyze_text_for_risk, hmaj, hmod, if_pos hmin]
      simp
    · intro hmaj hmod hmin
      simp only [meta_process, h, analyze_text_for_risk, hmaj, hmod, hmin]
      simp
  · intro t h hh hb hf hi hm
    have hcount : countHits majorWords (asciiLower t) = 2 := by
      simp [countHits, majorWords, hh, hb, hf, hi, hm]
    have hrisk : analyze_text_for_risk t = 9/10 := by
      simp only [analyze_text_for_risk, hcount]
      norm_num
    simp only [meta_process, h, hrisk]

/-- Witness for `c5_meta_parsing_cases`: numberless text containing exactly
the two major-tier words `"hallucination"` and `"bias"` is scored `0.9`. -/
theorem c5_meta_parsing_cases_witness :
    (searchNum (pyStrip "hallucination and bias").data = none
      ∧ isSubstr "hallucination".data (asciiLower "hallucination and bias").data = true
      ∧ isSubstr "bias".data (asciiLower "hallucination and bias").data = true)
    ∧ meta_process "hallucination and bias" = { bias_score := some (.fin (9/10)) } :=
  ⟨⟨by decide, by decide, by decide⟩,
    c5_meta_parsing_cases.2.2.2 "hallucination and bias"
      (by decide) (by decide) (by decide) (by decide) (by decide) (by decide)⟩

/-- C2 (amended): `iteration_count` equals the number of *successful*
stage invocations: it starts at 0, is incremented by exactly 1 after every
successful invocation, is left unchanged (re-emitted at its current value)
after a failed invocation, and never decreases across any executor step. -/
theorem c2_iteration_counts_successes (ag : Agent) (llm : Except String String) (s : LabState) :
    ((∃ r, executeCore ag llm s = .ok r) →
      (applyUpdate s (execute ag llm s)).iteration_count = s.iteration_count + 1)
    ∧ ((∃ e, executeCore ag llm s = .error e) →
      (applyUpdate s (execute ag llm s)).iteration_count = s.iteration_count)
    ∧ (initState "q").iteration_count = 0
    ∧ (∀ (st : Settings) (o : Nat → Except String String) (c : Config),
        c.state.iteration_count ≤ (step st o c).state.iteration_count) := by
  refine ⟨?_, ?_, rfl, fun st o c => step_iteration_mono st o c⟩
  · rintro ⟨r, hr⟩
    unfold execute
    rw [hr]
    simp [applyUpdate]
  · rintro ⟨e, he⟩
    unfold execute
    rw [he]
    simp [applyUpdate]

/-- Witness for `c2_iteration_counts_successes`: a successful planner
invocation on the initial state increments the counter from 0 to 1. -/
theorem c2_iteration_counts_successes_witness :
    (∃ r, executeCore plannerAgent (Except.ok "resp") (initState "hi") = .ok r)
    ∧ (applyUpdate (initState "hi")
          (execute plannerAgent (Except.ok "resp") (initState "hi"))).iteration_count
        = (initState "hi").iteration_count + 1 :=
  ⟨⟨{ requirements := some "resp" }, by decide⟩,
    (c2_iteration_counts_successes plannerAgent (Except.ok "resp") (initState "hi")).1
      ⟨{ requirements := some "resp" }, by decide⟩⟩

/-- Counterexample to C2 as stated: the planner invoked on an empty query
is a stage invocation that fails, and after it `iteration_count` is still
0, not incremented by 1. -/
theorem c2_counterexample :
    executeCore plannerAgent (Except.ok "resp") (initState "")
        = .error "Required field 'user_query' is missing or empty"
    ∧ (applyUpdate (initState "")
          (execute plannerAgent (Except.ok "resp") (initState ""))).iteration_count = 0
    ∧ ¬((applyUpdate (initState "")
          (execute plannerAgent (Except.ok "resp") (initState ""))).iteration_count
        = (initState "").iteration_count + 1) := by
  refine ⟨by decide, by decide, by decide⟩

/-- C7: when `architecture` is empty the Visualization stage fails its
precondition check, with a result independent of the external collaborator
(no external call can influence it); and in a concrete run where the
architect's generation calls fail, the run still reaches `Done` with a
non-empty error log and a final output that omits the Visualization
section and the never-populated Architecture section. -/
theorem c7_upstream_degradation :
    (∀ (s : LabState) (llm llm2 : Except String String), s.architecture = "" →
      execute visualizerAgent llm s = execute visualizerAgent llm2 s
      ∧ executeCore visualizerAgent llm s
          = .error "Required field 'architecture' is missing or empty")
    ∧ (run defaultSettings c7Oracle (initConfig "Build") 11).node = Node.done
    ∧ (run defaultSettings c7Oracle (initConfig "Build") 11).state.error_messages ≠ []
    ∧ (run defaultSettings c7Oracle (initConfig "Build") 11).state.final_markdown
        = "# Requirements\nTEXT\n\n---\n\n# Research Notes\nTEXT" := by
  refine ⟨?_, by decide, by decide, by decide⟩
  intro s llm llm2 h
  have hv : validateInputs visualizerAgent s
      = .error "Required field 'architecture' is missing or empty" := by
    simp [validateInputs, visualizerAgent, validateField, getStrField, h, pyStrip]
  constructor
  · unfold execute executeCore
    rw [hv]
  · unfold executeCore
    rw [hv]

/-- Witness for `c7_upstream_degradation`: on a state with empty
`architecture`, the visualizer's result is the same for a succeeding and a
failing collaborator, and is the precondition error. -/
theorem c7_upstream_degradation_witness :
    (initState "x").architecture = ""
    ∧ execute visualizerAgent (Except.ok "diagram") (initState "x")
        = execute visualizerAgent (Except.error "down") (initState "x")
    ∧ executeCore visualizerAgent (Except.ok "diagram") (initState "x")
        = .error "Required field 'architecture' is missing or empty" :=
  ⟨rfl,
    (c7_upstream_degradation.1 (initState "x") (Except.ok "diagram") (Except.error "down") rfl).1,
    (c7_upstream_degradation.1 (initState "x") (Except.ok "diagram") (Except.error "down") rfl).2⟩

/-- One executor step preserves the retry-bound invariant
`retries ≤ iteration_count ∧ retries ≤ max_retries`, provided a critic
step increments the counter (i.e. the critic invocation succeeds). -/
theorem step_retry_invariant (st : Settings) (o : Nat → Except String String) (c : Config)
    (hr : c.retries ≤ c.state.iteration_count) (hm : c.retries ≤ st.max_retries)
    (hincr : c.node = Node.critic →
      (step st o c).state.iteration_count = c.state.iteration_count + 1) :
    (step st o c).retries ≤ (step st o c).state.iteration_count
    ∧ (step st o c).retries ≤ st.max_retries := by
  obtain ⟨node, s, k, r⟩ := c
  dsimp only at hr hm
  cases node
  case critic =>
    have hinc := hincr rfl
    simp only [step] at hinc ⊢
    rcases hd : should_retry st (applyUpdate s (execute criticAgent (o k) s)) none with _ | _
    · rw [hd] at hinc
      dsimp only at hinc ⊢
      have hlt : (applyUpdate s (execute criticAgent (o k) s)).iteration_count
          < st.max_retries := by
        by_contra hge
        rw [Nat.not_lt] at hge
        simp [should_retry, shouldRetryBody, hge] at hd
      exact ⟨by omega, by omega⟩
    · rw [hd] at hinc
      dsimp only at hinc ⊢
      exact ⟨by omega, hm⟩
  all_goals exact ⟨hr.trans (step_iteration_mono st o ⟨_, s, k, r⟩), hm⟩

/-- C1 (amended): once the Router's iteration ceiling is reached the
decision is always "proceed"; and in any run whose critic invocations all
succeed (each critic step increments `iteration_count`) the retry edge is
taken at most `max_attempts` times.  Without that proviso the bound fails:
failed invocations leave `iteration_count` unchanged, so a run whose
loop-segment invocations all fail retries without bound
(see the counterexample). -/
theorem c1_retry_ceiling (st : Settings) (o : Nat → Except String String) (q : String) :
    (∀ s : LabState, st.max_retries ≤ s.iteration_count →
      should_retry st s none = Route.proceed)
    ∧ (∀ n : Nat, (∀ m, m < n → criticIncrAt st o (initConfig q) m) →
        (run st o (initConfig q) n).retries ≤ st.max_retries) := by
  refine ⟨fun s h => by simp [should_retry, shouldRetryBody, h], ?_⟩
  have key : ∀ n : Nat, (∀ m, m < n → criticIncrAt st o (initConfig q) m) →
      (run st o (initConfig q) n).retries ≤ (run st o (initConfig q) n).state.iteration_count
      ∧ (run st o (initConfig q) n).retries ≤ st.max_retries := by
    intro n
    induction n with
    | zero => exact fun _ => ⟨Nat.le_refl 0, Nat.zero_le _⟩
    | succ n ih =>
      intro H
      have IH := ih (fun m hm => H m (Nat.lt_succ_of_lt hm))
      exact step_retry_invariant st o (run st o (initConfig q) n) IH.1 IH.2
        (fun hc => H n (Nat.lt_succ_self n) hc)
  exact fun n H => (key n H).2

/-- Witness for `c1_retry_ceiling`: with the default settings and a
collaborator that always answers `"score: 3"` every critic invocation
succeeds, and after 9 steps (the whole run) the retry edge was taken at
most 3 times. -/
theorem c1_retry_ceiling_witness :
    (defaultSettings.max_retries ≤ (5 : Nat)
      ∧ (∀ m, m < 9 → criticIncrAt defaultSettings okOracle (initConfig "hi") m))
    ∧ should_retry defaultSettings ⟨"q", "r", "s", "a", "v", .fin 0, "", .fin 0, "", 5, []⟩ none
        = Route.proceed
    ∧ (run defaultSettings okOracle (initConfig "hi") 9).retries
        ≤ defaultSettings.max_retries :=
  ⟨⟨by decide, by decide⟩,
    (c1_retry_ceiling defaultSettings okOracle "hi").1
      ⟨"q", "r", "s", "a", "v", .fin 0, "", .fin 0, "", 5, []⟩ (by decide),
    (c1_retry_ceiling defaultSettings okOracle "hi").2 9 (by decide)⟩

/-- Counterexample to C1 as stated: with the default settings
(`max_attempts = 3`) and a collaborator whose every call fails, after 21
steps the retry edge has been taken 5 times — more than `max_attempts` —
and execution has not terminated at `Done`. -/
theorem c1_counterexample :
    (run defaultSettings failOracle (initConfig "hi") 21).retries = 5
    ∧ defaultSettings.max_retries
        < (run defaultSettings failOracle (initConfig "hi") 21).retries
    ∧ (run defaultSettings failOracle (initConfig "hi") 21).node ≠ Node.done := by
  refine ⟨by decide, by decide, by decide⟩

end ArcSys
